import Mathlib

/-!
Verification development for the query-translation core of the shaystack
repository: the JSON scalar codec (`haystackapi/jsondumper.py`), the SQLite
filter compiler (`haystackapi/providers/db_sqlite.py`) and the MongoDB filter
compiler (`shaystack/providers/db_mongo.py`).

Python floats are modelled as rationals (`Rat`); the `%f` fixed-point
formatting of CPython is modelled by `fmt6` below (round half up at the sixth
decimal; the claims under verification only exercise exactly representable
values, where the two agree).  Python exceptions are modelled by
`Except String`.
-/

/-- Modelled from the spec: the protocol `Version` class (module
`version.py`, not part of the sources under verification).  Only the
strict-order comparison against `VER_3_0` and `str(version)` are used by the
code under verification, so a version is a major/minor pair compared
lexicographically. -/
structure Version where
  major : Nat
  minor : Nat
deriving DecidableEq, Repr

/-- Python `version < other` on `Version` (lexicographic). -/
def Version.lt (a b : Version) : Bool :=
  a.major < b.major || (a.major == b.major && a.minor < b.minor)

/-- Python `str(version)`. -/
def Version.str (a : Version) : String :=
  s!"{a.major}.{a.minor}"

/-- `VER_3_0`, the minimum version for NA / list / dict values. -/
def VER_3_0 : Version := ⟨3, 0⟩

/-- Modelled from the spec: `LATEST_VER` of `version.py`; the latest protocol
version, at least 3.0. -/
def LATEST_VER : Version := ⟨3, 0⟩

/-- Modelled from the spec: the fixed sentinel string for `Marker`
(`jsonparser.py`, not part of the sources under verification). -/
def MARKER_STR : String := "m:"

/-- Modelled from the spec: the fixed sentinel string for `NA`. -/
def NA_STR : String := "z:"

/-- Modelled from the spec: the pre-3.0 sentinel string for `Remove`. -/
def REMOVE2_STR : String := "x:"

/-- Modelled from the spec: the 3.0 sentinel string for `Remove`. -/
def REMOVE3_STR : String := "-:"

/-- A JSON-native value, the output of `_dump_scalar`: `null`, boolean,
string, array or object (an object is an ordered key/value list, as a Python
`dict` preserves insertion order).  `_dump_scalar` never produces a JSON
number: every numeric scalar is string-encoded. -/
inductive JsonVal where
  | null
  | bool (b : Bool)
  | str (s : String)
  | arr (l : List JsonVal)
  | obj (l : List (String × JsonVal))

/-- The closed tagged-value union of the data model (spec §3), as consumed by
`_dump_scalar`.  `datetime` carries its resolved zone name (the
`timezone_name` helper is outside the sources under verification; spec §3
requires every DateTime to carry a resolved zone name).  `date` and `time`
carry the `isoformat()` text of the underlying Python object.  A `quantity`
is a magnitude with an optional unit symbol (`quantity.m` / `.value` /
`.magnitude` in the three call sites; `.symbol` is the unit symbol, the
`units` string).  A nested `grid` carries its own version, grid metadata,
ordered column set (name to column metadata) and ordered rows (each row a
partial mapping from column name to scalar). -/
inductive HScalar where
  | null
  | marker
  | na
  | remove
  | bool (b : Bool)
  | num (m : Rat)
  | quantity (m : Rat) (units : Option String)
  | str (s : String)
  | uri (s : String)
  | bin (s : String)
  | xstr (encoding : String) (data : String)
  | ref (name : String) (disp : Option String)
  | date (iso : String)
  | time (iso : String)
  | datetime (iso : String) (tz : String)
  | coord (lat : Rat) (lon : Rat)
  | list (l : List HScalar)
  | dict (d : List (String × HScalar))
  | grid (ver : Version) (meta : List (String × HScalar))
      (cols : List (String × List (String × HScalar)))
      (rows : List (List (String × HScalar)))

/-- CPython `'%f' % x`: fixed-point decimal with six digits after the point,
sign kept even when the rounded magnitude is zero. -/
def fmt6 (q : Rat) : String :=
  let sign := if q.num < 0 then "-" else ""
  let n : Nat := q.num.natAbs
  let d : Nat := q.den
  let scaled : Nat := (n * 1000000 * 2 + d) / (2 * d)
  let ip := scaled / 1000000
  let fp := scaled % 1000000
  let fs := toString fp
  sign ++ toString ip ++ "." ++ String.mk (List.replicate (6 - fs.length) '0') ++ fs

/-- Python `str(x)` for the number embedded by the SQL compiler's f-string.
For an integral value this is the integer text (`str(20) = "20"`); a
non-integral value is rendered in fixed decimal form via `fmt6` (an
approximation of CPython float repr, unused by the claims). -/
def pyNumStr (q : Rat) : String :=
  if q.den = 1 then toString q.num else fmt6 q

/-- One character of Python `json.dumps` string escaping (quote, backslash
and the common control characters; `ensure_ascii` translation of non-ASCII
characters is not modelled, no claim exercises it). -/
def jsonEscapeChar (c : Char) : String :=
  if c = '"' then "\\\""
  else if c = '\\' then "\\\\"
  else if c = '\n' then "\\n"
  else if c = '\t' then "\\t"
  else if c = '\r' then "\\r"
  else String.mk [c]

/-- Python `json.dumps` of a string. -/
def jsonDumpStr (s : String) : String :=
  "\"" ++ String.join (s.data.map jsonEscapeChar) ++ "\""

mutual

/-- Python `json.dumps` with the default separators (`", "` between items,
`": "` after a key). -/
def jsonDumps : JsonVal → String
  | .null => "null"
  | .bool b => if b then "true" else "false"
  | .str s => jsonDumpStr s
  | .arr l => "[" ++ jsonDumpsArr l ++ "]"
  | .obj l => "\x7b" ++ jsonDumpsObj l ++ "\x7d"

/-- The comma-joined items of a dumped JSON array. -/
def jsonDumpsArr : List JsonVal → String
  | [] => ""
  | [x] => jsonDumps x
  | x :: y :: t => jsonDumps x ++ ", " ++ jsonDumpsArr (y :: t)

/-- The comma-joined entries of a dumped JSON object. -/
def jsonDumpsObj : List (String × JsonVal) → String
  | [] => ""
  | [(k, v)] => jsonDumpStr k ++ ": " ++ jsonDumps v
  | (k, v) :: y :: t => jsonDumpStr k ++ ": " ++ jsonDumps v ++ ", " ++ jsonDumpsObj (y :: t)

end

/-- `_dump_decimal`: `'n:%f' % decimal`. -/
def _dump_decimal (m : Rat) : String :=
  "n:" ++ fmt6 m

/-- `_dump_quantity`: a quantity with no unit (or the empty-string unit) is
dumped as a plain number; otherwise `'n:%f %s' % (quantity.m, quantity.symbol)`. -/
def _dump_quantity (m : Rat) (units : Option String) : String :=
  match units with
  | none => _dump_decimal m
  | some "" => _dump_decimal m
  | some u => "n:" ++ fmt6 m ++ " " ++ u

/-- `_dump_ref`: `'r:<id>[ <display>]'`. -/
def _dump_ref (name : String) (disp : Option String) : String :=
  match disp with
  | some v => "r:" ++ name ++ " " ++ v
  | none => "r:" ++ name

/-- Python `d[k] = v` on a `dict`: replaces the value in place when the key
already exists (keeping its position), otherwise appends the entry at the
end (insertion order). -/
def dictAssign (l : List (String × JsonVal)) (k : String) (v : JsonVal) :
    List (String × JsonVal) :=
  if (l.lookup k).isSome then l.map (fun p => if p.1 == k then (p.1, v) else p)
  else l ++ [(k, v)]

/-- Termination helper: the value `row.get(c)` yields (the looked-up scalar,
or `null` when absent, mirroring Python `get`'s default) is no larger than
the row it came from. -/
theorem sizeOf_lookup_getD (row : List (String × HScalar)) (c : String) :
    sizeOf ((row.lookup c).getD HScalar.null) ≤ sizeOf row := by
  induction row with
  | nil => simp [List.lookup]
  | cons h t ih =>
      rcases h with ⟨k, v⟩
      simp only [List.lookup]
      split
      · simp
        omega
      · simp
        omega

mutual

/-- `_dump_scalar` of `jsondumper.py`: the scalar codec's encoder.  The
`isinstance` dispatch chain becomes an exhaustive match (the constructors are
disjoint, so the source's dispatch order is immaterial except for `bool`
before `int`/`float`, which the separate `bool` constructor preserves). -/
def _dump_scalar (ver : Version) : HScalar → Except String JsonVal
  | .null => .ok .null
  | .marker => .ok (.str MARKER_STR)
  | .na =>
      if ver.lt VER_3_0 then
        .error ("Project Haystack " ++ ver.str ++ " does not support NA")
      else .ok (.str NA_STR)
  | .remove => if ver.lt VER_3_0 then .ok (.str REMOVE2_STR) else .ok (.str REMOVE3_STR)
  | .list l => (_dump_list ver l).map JsonVal.arr
  | .dict d => (_dump_dict ver d).map JsonVal.obj
  | .bool b => .ok (.bool b)
  | .ref n d => .ok (.str (_dump_ref n d))
  | .bin s => .ok (.str ("b:" ++ s))
  | .xstr e dt => .ok (.str ("x:" ++ e ++ ":" ++ dt))
  | .uri s => .ok (.str ("u:" ++ s))
  | .str s => .ok (.str ("s:" ++ s))
  | .datetime iso tz => .ok (.str ("t:" ++ iso ++ " " ++ tz))
  | .time iso => .ok (.str ("h:" ++ iso))
  | .date iso => .ok (.str ("d:" ++ iso))
  | .coord la lo => .ok (.str ("c:" ++ fmt6 la ++ "," ++ fmt6 lo))
  | .quantity m u => .ok (.str (_dump_quantity m u))
  | .num m => .ok (.str (_dump_decimal m))
  | .grid v meta cols rows => _dump_grid_to_json v meta cols rows
termination_by s => 4 * sizeOf s
decreasing_by all_goals simp_wf; all_goals omega

/-- `_dump_list`: version-gated, then each element through `_dump_scalar`. -/
def _dump_list (ver : Version) (l : List HScalar) : Except String (List JsonVal) :=
  if ver.lt VER_3_0 then
    .error ("Project Haystack " ++ ver.str ++ " does not support lists")
  else _dump_list_items ver l
termination_by 4 * sizeOf l + 2
decreasing_by all_goals simp_wf; all_goals omega

/-- The `map(partial(_dump_scalar, version=version), lst)` of `_dump_list`. -/
def _dump_list_items (ver : Version) : List HScalar → Except String (List JsonVal)
  | [] => .ok []
  | s :: t => do
      let j ← _dump_scalar ver s
      let r ← _dump_list_items ver t
      .ok (j :: r)
termination_by l => 4 * sizeOf l + 1
decreasing_by all_goals simp_wf; all_goals omega

/-- `_dump_dict`: version-gated, then the comprehension over the entries. -/
def _dump_dict (ver : Version) (d : List (String × HScalar)) :
    Except String (List (String × JsonVal)) :=
  if ver.lt VER_3_0 then
    .error ("Project Haystack " ++ ver.str ++ " does not support dict")
  else _dump_fields ver d
termination_by 4 * sizeOf d + 2
decreasing_by all_goals simp_wf; all_goals omega

/-- The entry-wise dump shared by `_dump_dict`'s comprehension and
`_dump_meta`'s `dict(map(_dump_meta_item, items))` (`_dump_id` is the
identity on the key). -/
def _dump_fields (ver : Version) : List (String × HScalar) →
    Except String (List (String × JsonVal))
  | [] => .ok []
  | (k, v) :: t => do
      let j ← _dump_scalar ver v
      let r ← _dump_fields ver t
      .ok ((k, j) :: r)
termination_by d => 4 * sizeOf d + 1
decreasing_by all_goals simp_wf; all_goals omega

/-- `_dump_meta`: the dumped entries, plus the injected `ver` entry when
dumping for a grid. -/
def _dump_meta (ver : Version) (forGrid : Bool) (meta : List (String × HScalar)) :
    Except String (List (String × JsonVal)) := do
  let m ← _dump_fields ver meta
  if forGrid then .ok (dictAssign m "ver" (.str ver.str)) else .ok m
termination_by 4 * sizeOf meta + 2
decreasing_by all_goals simp_wf; all_goals omega

/-- `_dump_column`: the column's metadata (empty metadata dumps to the empty
object) with the injected `name` entry. -/
def _dump_column (ver : Version) (col : String) (colMeta : List (String × HScalar)) :
    Except String (List (String × JsonVal)) := do
  let m ← if colMeta.isEmpty then .ok [] else _dump_meta ver false colMeta
  .ok (dictAssign m "name" (.str col))
termination_by 4 * sizeOf colMeta + 3
decreasing_by all_goals simp_wf; all_goals omega

/-- `_dump_columns`: `zip(*list(cols.items()))` transposes the column list and
`map(_dump, *_cols)` dumps column-wise.  With no columns the transpose is
empty and `map` receives no iterable, a `TypeError` in Python. -/
def _dump_columns (ver : Version) (cols : List (String × List (String × HScalar))) :
    Except String (List (List (String × JsonVal))) :=
  if cols.isEmpty then .error "TypeError: map() must have at least two arguments."
  else _dump_columns_items ver cols
termination_by 4 * sizeOf cols + 2
decreasing_by all_goals simp_wf; all_goals omega

/-- The column-wise `map(_dump_column, ...)` of `_dump_columns`. -/
def _dump_columns_items (ver : Version) :
    List (String × List (String × HScalar)) →
    Except String (List (List (String × JsonVal)))
  | [] => .ok []
  | (c, m) :: t => do
      let o ← _dump_column ver c m
      let r ← _dump_columns_items ver t
      .ok (o :: r)
termination_by cols => 4 * sizeOf cols + 1
decreasing_by all_goals simp_wf; all_goals omega

/-- `_dump_row`: an entry per column of the grid that is present in the row
(`for c in list(grid.column.keys()) if c in row`), dumping `row.get(c)`. -/
def _dump_row (ver : Version) (row : List (String × HScalar)) :
    List (String × List (String × HScalar)) →
    Except String (List (String × JsonVal))
  | [] => .ok []
  | (c, _) :: t =>
      if (row.lookup c).isSome then do
        let j ← _dump_scalar ver ((row.lookup c).getD HScalar.null)
        let r ← _dump_row ver row t
        .ok ((c, j) :: r)
      else
        _dump_row ver row t
termination_by cols => 4 * (sizeOf row + sizeOf cols) + 1
decreasing_by all_goals simp_wf; all_goals (have h := sizeOf_lookup_getD row c; omega)

/-- `_dump_rows`: each row of the grid through `_dump_row`. -/
def _dump_rows (ver : Version) (cols : List (String × List (String × HScalar))) :
    List (List (String × HScalar)) →
    Except String (List (List (String × JsonVal)))
  | [] => .ok []
  | row :: t => do
      let o ← _dump_row ver row cols
      let r ← _dump_rows ver cols t
      .ok (o :: r)
termination_by rows => 4 * (sizeOf rows + sizeOf cols) + 2
decreasing_by all_goals simp_wf; all_goals omega

/-- `_dump_grid_to_json`: the assembled `{meta, cols, rows}` document, built
with the grid's own version. -/
def _dump_grid_to_json (ver : Version) (meta : List (String × HScalar))
    (cols : List (String × List (String × HScalar)))
    (rows : List (List (String × HScalar))) : Except String JsonVal := do
  let m ← _dump_meta ver true meta
  let c ← _dump_columns ver cols
  let r ← _dump_rows ver cols rows
  .ok (.obj [("meta", .obj m),
             ("cols", .arr (c.map JsonVal.obj)),
             ("rows", .arr (r.map JsonVal.obj))])
termination_by 4 * (sizeOf meta + sizeOf cols + sizeOf rows) + 3
decreasing_by all_goals simp_wf; all_goals omega

end

/-- `dump_scalar` of `jsondumper.py`: `json.dumps(_dump_scalar(scalar, version))`,
the raw-text embedding used by both query compilers.  Its result, when it
does not raise, is always a string (`json.dumps` returns `str`). -/
def dump_scalar (scalar : HScalar) (ver : Version := LATEST_VER) : Except String String :=
  (_dump_scalar ver scalar).map jsonDumps

/-- Modelled from the spec: the filter AST (module `filter_ast`, outside the
sources under verification; spec §3 defines its shape).  `path`, `unary` and
`binary` are the `FilterPath` / `FilterUnary` / `FilterBinary` node classes,
each a subclass of `FilterNode`; `scalar` wraps a bare Haystack literal, as
the compilers receive `Union[FilterNode, HaystackType]` operands. -/
inductive FilterVal where
  | path (paths : List String)
  | unary (op : String) (right : FilterVal)
  | binary (op : String) (left : FilterVal) (right : FilterVal)
  | scalar (s : HScalar)

/-- Python `isinstance(x, FilterNode)`: every AST node class derives from
`FilterNode`; a bare Haystack scalar value does not. -/
def isinstanceFilterNode : FilterVal → Bool
  | .scalar _ => false
  | _ => true

/-- Python `isinstance(x, (int, float))` on a Haystack literal: true for a
bare number and for a boolean (Python `bool` is a subclass of `int`); false
for a `Quantity` (a pint object, not an `int`/`float` instance) and for every
other kind. -/
def isinstanceIntFloat : HScalar → Bool
  | .num _ => true
  | .bool _ => true
  | _ => false

/-- The `if isinstance(value, Quantity): value = value.value` unwrap of the
comparison branch: a Quantity literal contributes its bare float magnitude;
every other literal passes through. -/
def unwrapQuantity : HScalar → HScalar
  | .quantity m _ => .num m
  | s => s

/-- `isinstanceIntFloat` lifted to a compiler operand. -/
def isIntFloatVal : FilterVal → Bool
  | .scalar s => isinstanceIntFloat s
  | _ => false

/-- Python `f"{value}"` for an `int`/`float` comparison literal (a `bool`
renders as `True`/`False`). -/
def pyValStr : FilterVal → String
  | .scalar (.num m) => pyNumStr m
  | .scalar (.bool b) => if b then "True" else "False"
  | _ => ""

/-- `isinstance(x, FilterBinary) and x.operator in ["and", "or"]`, the
parenthesisation test of the logical branch. -/
def isBinaryAndOr : FilterVal → Bool
  | .binary op _ _ => op == "and" || op == "or"
  | _ => false

/-- Python `v is None` where `v` holds a `json.dumps(...)` result:
`json.dumps` always returns a `str` object, never `None`, so the test is
false for every input — it keeps the two null-test branches of
`_generate_filter_in_sql` in the model, mirroring the source. -/
def isPyNone (_v : String) : Bool := false

/-- `_select_version` of `db_sqlite.py` (`version.isoformat()` is the
caller-supplied as-of instant, modelled by its ISO text). -/
def _select_version (verIso : String) (numTable : Nat) : String :=
  s!"'{verIso}' BETWEEN datetime(t{numTable}.start_datetime) AND datetime(t{numTable}.end_datetime)\n"

/-- The `INNER JOIN {table_name} AS t{num_table} ON` fragment of
`_generate_path`. -/
def innerJoinFrag (tableName : String) (numTable : Nat) : String :=
  s!"INNER JOIN {tableName} AS t{numTable} ON\n"

/-- The `AND t{num_table}.customer_id='{customer_id}'` fragment. -/
def tenantFrag (customerId : String) (numTable : Nat) : String :=
  s!"AND t{numTable}.customer_id='{customerId}'\n"

/-- The reference-to-id equality fragment joining `t{num_table - 1}` to
`t{num_table}` over path segment `p`. -/
def refEqFrag (p : String) (numTable : Nat) : String :=
  let prev := numTable - 1
  s!"AND json_object(json(t{prev}.entity),'$.{p}') = json_object(json(t{numTable}.entity),'$.id')\n"

/-- The `for path in node.paths[:-1]` loop of `_generate_path`, threading the
`first` flag and the `num_table`, `select` and `where` accumulators.  In
`db_sqlite.py` the accumulators only ever receive plain strings (no call
appends a nested list), so `_flatten` is the identity on them and
`"".join(_flatten(where))` is `String.join where`. -/
def _generate_path_loop (tableName customerId verIso : String) :
    List String → List String → List String → Bool → Nat →
    Nat × List String × List String
  | [], sel, wh, _, numTable => (numTable, sel, wh)
  | p :: rest, sel, wh, first, numTable =>
      let numTable' := numTable + 1
      let sel' := if first then sel ++ [innerJoinFrag tableName numTable']
                  else sel ++ [String.join wh, innerJoinFrag tableName numTable']
      let wh0 := if first then wh else []
      let wh' := wh0 ++ [_select_version verIso numTable',
                         tenantFrag customerId numTable',
                         refEqFrag p numTable']
      _generate_path_loop tableName customerId verIso rest sel' wh' false numTable'

/-- `_generate_path` of `db_sqlite.py`: a single-segment path returns the
state unchanged; a longer path emits one `INNER JOIN` per hop and ends the
`where` accumulator with a dangling `"AND "`. -/
def _generate_path (tableName customerId verIso : String)
    (select wh : List String) (paths : List String) (numTable : Nat) :
    Nat × List String × List String :=
  if paths.length == 1 then (numTable, select, wh)
  else
    let r := _generate_path_loop tableName customerId verIso paths.dropLast select wh true numTable
    (r.1, r.2.1, r.2.2 ++ ["AND "])

/-- `_generate_filter_in_sql` of `db_sqlite.py`: the recursive SQL compiler
over the filter AST.  Python assertion failures, attribute errors and
codec exceptions are modelled as `Except.error`. -/
def _generate_filter_in_sql (tableName customerId verIso : String)
    (select wh : List String) (node : FilterVal) (numTable : Nat) :
    Except String (Nat × List String × List String) :=
  match node with
  | .unary op right =>
      if op == "has" then
        match right with
        | .path ps =>
            let r := _generate_path tableName customerId verIso select wh ps numTable
            let n := r.1
            match ps.getLast? with
            | some last =>
                .ok (n, r.2.1,
                  r.2.2 ++ [s!"json_extract(json(t{n}.entity),'$.{last}') IS NOT NULL\n"])
            | none => .error "IndexError: list index out of range"
        | _ => .error "AssertionError"
      else if op == "not" then
        match right with
        | .path ps =>
            let r := _generate_path tableName customerId verIso select wh ps numTable
            let n := r.1
            match ps.getLast? with
            | some last =>
                .ok (n, r.2.1,
                  r.2.2 ++ [s!"json_extract(json(t{n}.entity),'$.{last}') IS NULL\n"])
            | none => .error "IndexError: list index out of range"
        | _ => .error "AssertionError"
      else .error "AssertionError"
  | .binary op left right =>
      if op == "and" || op == "or" then do
        let parentLeft := isBinaryAndOr left
        let wh1 := if parentLeft then wh ++ ["("] else wh
        let r1 ← _generate_filter_in_sql tableName customerId verIso select wh1 left numTable
        let n1 := r1.1
        let sel1 := r1.2.1
        let wh2 := r1.2.2
        let opU := op.toUpper
        let wh3 := if parentLeft then [(String.join wh2).dropRight 1, s!")\n{opU} "]
                   else wh2 ++ [s!"{opU} "]
        let parentRight := isBinaryAndOr right
        let wh4 := if parentRight then wh3 ++ ["("] else wh3
        let r2 ← _generate_filter_in_sql tableName customerId verIso sel1 wh4 right n1
        let n2 := r2.1
        let sel2 := r2.2.1
        let wh5 := r2.2.2
        let wh6 := if parentRight then [(String.join wh5).dropRight 1, ")\n"] else wh5
        .ok (n2, sel2, wh6)
      else
        -- value = node.right; a Quantity is unwrapped to its float magnitude
        let value : FilterVal :=
          match right with
          | .scalar s => .scalar (unwrapQuantity s)
          | v => v
        if isIntFloatVal value && !(op == "==" || op == "!=") then
          -- comparison with numbers: strip the 2-character header and CAST
          match left with
          | .path ps =>
              let r := _generate_path tableName customerId verIso select wh ps numTable
              let n := r.1
              match ps.getLast? with
              | some last =>
                  let rendered := pyValStr value
                  .ok (n, r.2.1, r.2.2 ++
                    [s!"CAST(substr(json_extract(json(t{n}.entity),'$.{last}'),3) AS REAL)",
                     s!" {op} {rendered}\n"])
              | none => .error "IndexError: list index out of range"
          | _ => .error "AttributeError: paths"
        else
          if !(op == "==" || op == "!=") then
            .error "AssertionError: Operator not supported for this type"
          else
            match left with
            | .path ps =>
                let r := _generate_path tableName customerId verIso select wh ps numTable
                let n := r.1
                match ps.getLast? with
                | some last =>
                    match value with
                    | .scalar sv =>
                        match dump_scalar sv LATEST_VER with
                        | .error e => .error e
                        | .ok v =>
                            if isPyNone v then
                              if op == "!=" then
                                .ok (n, r.2.1, r.2.2 ++
                                  [s!"json_extract(json(t{n}.entity),'$.{last}') IS NOT NULL\n"])
                              else
                                .ok (n, r.2.1, r.2.2 ++
                                  [s!"json_extract(json(t{n}.entity),'$.{last}') IS NULL\n"])
                            else
                              .ok (n, r.2.1, r.2.2 ++
                                [s!"json_extract(json(t{n}.entity),'$.{last}') {op} '{v}'\n"])
                    | _ => .error "NotImplementedError: Unhandled case"
                | none => .error "IndexError: list index out of range"
            | _ => .error "AttributeError: paths"
  | _ => .error "AssertionError: Invalid node"

/-- A MongoDB aggregation-expression value, the output of `_conv_filter`:
string (field references and dumped literals), number, boolean, array or
document. -/
inductive MongoVal where
  | str (s : String)
  | num (q : Rat)
  | bool (b : Bool)
  | arr (l : List MongoVal)
  | obj (l : List (String × MongoVal))

/-- `_simple_ops` of `db_mongo.py`. -/
def _simple_ops : List (String × String) :=
  [("==", "$eq"), ("!=", "$ne"), ("and", "$and"), ("or", "$or")]

/-- `_relative_ops` of `db_mongo.py`. -/
def _relative_ops : List (String × String) :=
  [("<", "$lt"), ("<=", "$lte"), (">", "$gt"), (">=", "$gte")]

/-- `_to_float` of `db_mongo.py`: a `Quantity` contributes its magnitude; an
`int`/`float` instance — which in Python includes a `bool` — is returned
unchanged; anything else raises `ValueError`. -/
def _to_float : HScalar → Except String MongoVal
  | .quantity m _ => .ok (.num m)
  | .num m => .ok (.num m)
  | .bool b => .ok (.bool b)
  | _ => .error "ValueError: Impossible to compare with not a numnber"

/-- The `$let`/`$regexFind`/`$toDouble` helper sub-expression the relative
branch of `_conv_filter` builds around a field reference `path` (a string of
the form `$<tag>`): the numeral embedded in the tag-prefixed string value is
regex-captured and converted to a double. -/
def mongoToDouble (path : String) : MongoVal :=
  let pathTail := path.drop 1
  let varRef := "$" ++ path ++ "_.captures"
  .obj [("$let", .obj [
      ("vars", .obj [(pathTail ++ "_", .obj [
          ("$regexFind", .obj [
              ("input", .str path),
              ("regex", .str "n:([-+]?([0-9]*[.])?[0-9]+([eE][-+]?\\d+)?)")])])]),
      ("in", .obj [("$toDouble", .obj [
          ("$arrayElemAt", .arr [.str varRef, .num 0])])])])]

/-- `_conv_filter` of `db_mongo.py`: the Mongo aggregation-expression
compiler over the filter AST.  A `FilterUnary` with an operator other than
`has`/`not` falls through every `isinstance` test to
`json_dump_scalar(node)`, which raises `NotImplementedError`; Python
exceptions are modelled as `Except.error`. -/
def _conv_filter : FilterVal → Except String MongoVal
  | .unary op right =>
      if op == "has" then do
        let c ← _conv_filter right
        .ok (.obj [("$cond", .obj [("if", c), ("then", .num 1), ("else", .num 0)])])
      else if op == "not" then do
        let _right_expr ← _conv_filter right
        -- Python tests `isinstance(node, FilterNode)` on the unary node
        -- itself — always a FilterNode — not on `node.right`: the `$cond`
        -- inverse branch below is unreachable.
        if isinstanceFilterNode (.unary op right) then do
          let c ← _conv_filter right
          .ok (.obj [("$not", c)])
        else do
          let c ← _conv_filter right
          .ok (.obj [("$cond", .obj [("if", c), ("then", .num 0), ("else", .num 1)])])
      else .error "NotImplementedError: Unhandled case"
  | .path ps =>
      match ps with
      | p :: _ => .ok (.str ("$" ++ p))
      | [] => .error "IndexError: list index out of range"
  | .binary op left right =>
      match _simple_ops.lookup op with
      | some mop => do
          let l ← _conv_filter left
          let r ← _conv_filter right
          .ok (.obj [(mop, .arr [l, r])])
      | none =>
          match _relative_ops.lookup op with
          | some mop => do
              let pv ← _conv_filter left
              match pv with
              | .str path =>
                  match right with
                  | .scalar s => do
                      let f ← _to_float s
                      .ok (.obj [(mop, .arr [mongoToDouble path, f])])
                  | _ => .error "ValueError: Impossible to compare with not a numnber"
              | _ => .error "TypeError: unhashable type"
          | none => .error "AssertionError: Invalid operator"
  | .scalar s => (dump_scalar s LATEST_VER).map MongoVal.str

/-- `_mongo_filter` of `db_mongo.py`.  `parse_filter` — the filter-language
parser — is outside the sources under verification (spec §1 treats it as an
external collaborator), so it is taken as an arbitrary function from the
filter text to the parsed AST head (`parse_filter(grid_filter).head`). -/
def _mongo_filter (parse_head : String → FilterVal) (gridFilter : String)
    (version : String) (limit : Nat) (customerId : String) :
    Except String (List MongoVal) := do
  let e ← _conv_filter (parse_head gridFilter)
  .ok [.obj [("$match", .obj [("$expr", e)])]]

/-- Following the spec's words for path expansion (§4.3): the three
constraint clauses attached to each new alias `t<m>` — the bitemporal
validity test, the tenant-equality test, and the equality between the
reference value extracted on the previous alias and the `id` field on the
new alias (over path segment `p`). -/
def specHopWhere (customerId verIso : String) (p : String) (m : Nat) : List String :=
  [_select_version verIso m, tenantFrag customerId m, refEqFrag p m]

/-- Following the spec's words: after the first `INNER JOIN`, each further
hop contributes the flushed constraints of the previous hop followed by the
next `INNER JOIN` fragment (alias `m + 1`), one join per traversed hop. -/
def specJoinTail (tableName customerId verIso : String) :
    List String → List String → Nat → List String
  | _, [], _ => []
  | whPrev, p :: rest, m =>
      [String.join whPrev, innerJoinFrag tableName (m + 1)] ++
        specJoinTail tableName customerId verIso
          (specHopWhere customerId verIso p (m + 1)) rest (m + 1)

/-- Following the spec's words: the unflushed `where` accumulator after the
loop — the constraint clauses of the last traversed hop. -/
def specLastWhere (customerId verIso : String) :
    List String → List String → Nat → List String
  | whPrev, [], _ => whPrev
  | _, p :: rest, m =>
      specLastWhere customerId verIso (specHopWhere customerId verIso p (m + 1)) rest (m + 1)

/-- Closed form of the path-expansion loop once the `first` flag is off. -/
theorem generate_path_loop_false (tbl cust ver : String) (ps : List String)
    (sel wh : List String) (n : Nat) :
    _generate_path_loop tbl cust ver ps sel wh false n =
      (n + ps.length,
       sel ++ specJoinTail tbl cust ver wh ps n,
       specLastWhere cust ver wh ps n) := by
  induction ps generalizing sel wh n with
  | nil => simp [_generate_path_loop, specJoinTail, specLastWhere]
  | cons p rest ih =>
      simp [_generate_path_loop, specJoinTail, specLastWhere, ih, specHopWhere]
      omega

/-- C1: the claim says a literal that encodes to `null` makes `==` generate
an `IS NULL` test.  In the code the guard `v is None` can never hold:
`v = jsondumper.dump_scalar(value)` is `json.dumps(_dump_scalar(...))`, a
`str` — for a null literal it is the four-character text `null` — so at the
failing input `x == null` the compiler emits a string comparison against
`'null'` instead of the null test (the `IS NULL` / `IS NOT NULL` branches of
`_generate_filter_in_sql` are dead code). -/
theorem C1_null_literal_equality_is_code_bug :
    _generate_filter_in_sql "entity" "demo" "2020-10-01T00:00:00"
      ["SEL"] ["WH"] (.binary "==" (.path ["x"]) (.scalar .null)) 1 =
    .ok (1, ["SEL"], ["WH", "json_extract(json(t1.entity),'$.x') == 'null'\n"]) := by
  have h : dump_scalar HScalar.null LATEST_VER = .ok "null" := by
    simp [dump_scalar, _dump_scalar, jsonDumps, Except.map]
  simp [_generate_filter_in_sql, h, _generate_path, isPyNone, pyValStr, isIntFloatVal,
    isinstanceIntFloat, unwrapQuantity]
  rfl

/-- C3: the claim says `not` on a non-predicate operand (a plain path)
compiles to the 1/0 conditional inverse.  The code tests
`isinstance(node, FilterNode)` on the unary node itself — always true — so
every `not` compiles to the direct `$not` negation: at the failing input
`not occupied` (operand a plain path, not a predicate-valued expression) the
result is `{"$not": "$occupied"}`, never the `$cond` inverse. -/
theorem C3_mongo_not_always_logical_negation :
    _conv_filter (.unary "not" (.path ["occupied"])) =
      .ok (.obj [("$not", .str "$occupied")]) := by rfl

/-- C9: a `Path` node compiles to `'$' + node.paths[0]`: the field reference
built from the first segment only, so two paths sharing a first segment
compile identically whatever their remaining segments (no join expansion in
the Mongo compiler). -/
theorem C9_mongo_path_first_segment_only (p : String) (rest rest2 : List String) :
    _conv_filter (.path (p :: rest)) = .ok (.str ("$" ++ p)) ∧
    _conv_filter (.path (p :: rest)) = _conv_filter (.path (p :: rest2)) := by
  exact ⟨rfl, rfl⟩

/-- C10: `_mongo_filter` uses only the parsed filter: for any parser, filter
text and any two combinations of version instant, limit and customer
identifier, the produced aggregation pipelines are identical — no tenant,
version or limit constraint enters the pipeline. -/
theorem C10_mongo_pipeline_context_independent
    (parse_head : String → FilterVal) (gf : String)
    (v1 v2 : String) (l1 l2 : Nat) (c1 c2 : String) :
    _mongo_filter parse_head gf v1 l1 c1 = _mongo_filter parse_head gf v2 l2 c2 := rfl

/-- C2: SQL path expansion.  For a path `p :: rest` with `k = rest.length + 1
≥ 2` segments, `_generate_path` advances the alias counter by exactly `k - 1`
(aliases `t(n+1)..t(n+k-1)`, i.e. `t2..tk` from the top-level `num_table = 1`)
and its output is characterised exactly: the `select` accumulator gains the
first `INNER JOIN` fragment and then `specJoinTail`, which emits exactly one
`INNER JOIN` fragment per further hop — conjunct 3 gives its length, conjunct
4 puts the join fragments at the odd positions with consecutive aliases — and
the `where` accumulator ends as the last hop's three constraint clauses
(`specHopWhere`: bitemporal validity test, tenant-equality test, and the
equality between the reference extracted on the previous alias and the `id`
field on the new alias) plus the dangling `"AND "`; each earlier hop's
constraints are flushed into the join tail (visible in `specJoinTail`'s
recursion through `specHopWhere`).  A single-segment path (conjunct 2)
returns the alias counter and both accumulators unchanged. -/
theorem C2_sql_path_join_expansion
    (tbl cust ver : String) (paths : List String) (sel wh : List String) (n : Nat) :
    (∀ p rest, paths = p :: rest → rest ≠ [] →
        _generate_path tbl cust ver sel wh paths n =
          (n + rest.length,
           sel ++ [innerJoinFrag tbl (n + 1)] ++
             specJoinTail tbl cust ver (wh ++ specHopWhere cust ver p (n + 1))
               rest.dropLast (n + 1),
           specLastWhere cust ver (wh ++ specHopWhere cust ver p (n + 1))
             rest.dropLast (n + 1) ++ ["AND "]))
    ∧ (paths.length = 1 → _generate_path tbl cust ver sel wh paths n = (n, sel, wh))
    ∧ (∀ whPrev ps m, (specJoinTail tbl cust ver whPrev ps m).length = 2 * ps.length)
    ∧ (∀ whPrev ps m i, i < ps.length →
        (specJoinTail tbl cust ver whPrev ps m)[2 * i + 1]? =
          some (innerJoinFrag tbl (m + 1 + i))) := by
  refine ⟨?_, ?_, ?_, ?_⟩
  · rintro p rest rfl hne
    rcases rest with _ | ⟨q, rs⟩
    · cases hne rfl
    · simp only [_generate_path, List.length_cons]
      have hlen : (rs.length + 1 + 1 == 1) = false := by
        simp
      rw [hlen]
      simp only [Bool.false_eq_true, if_false, List.dropLast,
        _generate_path_loop, if_true]
      rw [generate_path_loop_false]
      simp [List.length_dropLast, specHopWhere]
      omega
  · intro h
    simp [_generate_path, h]
  · intro whPrev ps m
    induction ps generalizing whPrev m with
    | nil => simp [specJoinTail]
    | cons p rest ih =>
        simp [specJoinTail, ih]
        omega
  · intro whPrev ps m i hi
    induction ps generalizing whPrev m i with
    | nil => simp at hi
    | cons p rest ih =>
        rcases i with _ | j
        · simp [specJoinTail]
        · have harith : 2 * (j + 1) + 1 = 2 * j + 1 + 1 + 1 := by omega
          simp only [specJoinTail, List.cons_append, List.nil_append, harith,
            List.getElem?_cons_succ]
          have := ih (specHopWhere cust ver p (m + 1)) (m + 1) j (by simpa using hi)
          simpa [Nat.add_assoc, Nat.add_comm, Nat.add_left_comm] using this

/-- Witness for C2: the three-segment path `siteRef.areaRef.temp` from alias
counter 1 yields counter 3, two `INNER JOIN` fragments (aliases t2 and t3)
with the first hop's constraints flushed between them, and the second hop's
constraints left in the `where` accumulator before the dangling `"AND "`. -/
theorem C2_sql_path_join_expansion_witness :
    _generate_path "entity" "demo" "2020-10-01T00:00:00" ["SEL"] ["WH"]
      ["siteRef", "areaRef", "temp"] 1 =
      (3,
       ["SEL", innerJoinFrag "entity" 2,
        String.join (["WH"] ++ specHopWhere "demo" "2020-10-01T00:00:00" "siteRef" 2),
        innerJoinFrag "entity" 3],
       specHopWhere "demo" "2020-10-01T00:00:00" "areaRef" 3 ++ ["AND "]) := by
  have h := (C2_sql_path_join_expansion "entity" "demo" "2020-10-01T00:00:00"
      ["siteRef", "areaRef", "temp"] ["SEL"] ["WH"] 1).1 "siteRef" ["areaRef", "temp"]
      rfl (by simp)
  simpa [specJoinTail, specLastWhere, List.dropLast] using h

/-- C4 counterexample: the claim says every non-numeric literal yields a
direct string comparison, but at `dis < "Foo"` — a non-numeric literal under
a relative operator — the compiler raises an assertion error
(`assert node.operator in ('==', '!=')`) and generates no clause at all. -/
theorem C4_counterexample_string_literal_relative_comparison :
    _generate_filter_in_sql "entity" "demo" "2020-10-01T00:00:00"
      ["SEL"] ["WH"] (.binary "<" (.path ["dis"]) (.scalar (.str "Foo"))) 1 =
    .error "AssertionError: Operator not supported for this type" := by rfl

/-- C4 as amended: for a comparison on a single-segment path, a literal that
passes the compiler's numeric test — `isinstance(value, (int, float))` after
unwrapping a Quantity to its magnitude, a test Python booleans also pass —
under `<`, `<=`, `>`, `>=` generates the clause that strips the 2-character
type prefix (`substr(..., 3)`), casts to REAL and compares numerically; for
`==` and `!=` every literal generates a direct comparison of the extracted
field against the encoded literal text (`json.dumps` of its scalar
encoding); and a literal failing the numeric test under a relative operator
fails fast with an assertion error instead of generating a string
comparison. -/
theorem C4_amended_numeric_vs_string_branch
    (tbl cust ver p : String) (sel wh : List String) (n : Nat) (op : String)
    (lit : HScalar) :
    ((op = "<" ∨ op = "<=" ∨ op = ">" ∨ op = ">=") →
      (∀ m : Rat, unwrapQuantity lit = .num m →
        _generate_filter_in_sql tbl cust ver sel wh
            (.binary op (.path [p]) (.scalar lit)) n =
          .ok (n, sel, wh ++
            [s!"CAST(substr(json_extract(json(t{n}.entity),'$.{p}'),3) AS REAL)",
             " " ++ op ++ " " ++ pyNumStr m ++ "\n"])) ∧
      (∀ b : Bool, unwrapQuantity lit = .bool b →
        _generate_filter_in_sql tbl cust ver sel wh
            (.binary op (.path [p]) (.scalar lit)) n =
          .ok (n, sel, wh ++
            [s!"CAST(substr(json_extract(json(t{n}.entity),'$.{p}'),3) AS REAL)",
             " " ++ op ++ " " ++ (if b then "True" else "False") ++ "\n"])) ∧
      (isinstanceIntFloat (unwrapQuantity lit) = false →
        _generate_filter_in_sql tbl cust ver sel wh
            (.binary op (.path [p]) (.scalar lit)) n =
          .error "AssertionError: Operator not supported for this type"))
    ∧ ((op = "==" ∨ op = "!=") →
      ∀ v : String, dump_scalar (unwrapQuantity lit) LATEST_VER = .ok v →
        _generate_filter_in_sql tbl cust ver sel wh
            (.binary op (.path [p]) (.scalar lit)) n =
          .ok (n, sel, wh ++
            [s!"json_extract(json(t{n}.entity),'$.{p}') " ++ op ++ " '" ++ v ++ "'\n"])) := by
  constructor
  · intro hop
    refine ⟨?_, ?_, ?_⟩
    · intro m hm
      rcases hop with h | h | h | h <;> subst h <;>
        · simp [_generate_filter_in_sql, hm, _generate_path, isIntFloatVal,
            isinstanceIntFloat, pyValStr]
          rfl
    · intro b hb
      rcases hop with h | h | h | h <;> subst h <;>
        · simp [_generate_filter_in_sql, hb, _generate_path, isIntFloatVal,
            isinstanceIntFloat, pyValStr]
          rfl
    · intro hnum
      rcases hop with h | h | h | h <;> subst h <;>
        · simp [_generate_filter_in_sql, hnum, _generate_path, isIntFloatVal]
  · intro hop v hv
    rcases hop with h | h <;> subst h <;>
      · simp [_generate_filter_in_sql, hv, _generate_path, isIntFloatVal,
          isinstanceIntFloat, isPyNone]
        rfl

/-- Witness for C4 as amended: `temp > 20` generates the numeric
`CAST(substr(..., 3) AS REAL) > 20` clause, via the amended theorem at the
concrete input. -/
theorem C4_amended_numeric_vs_string_branch_witness :
    _generate_filter_in_sql "entity" "demo" "2020-10-01T00:00:00" ["SEL"] ["WH"]
      (.binary ">" (.path ["temp"]) (.scalar (.num 20))) 1 =
      .ok (1, ["SEL"], ["WH",
        "CAST(substr(json_extract(json(t1.entity),'$.temp'),3) AS REAL)",
        " > 20\n"]) := by
  have h := ((C4_amended_numeric_vs_string_branch "entity" "demo"
      "2020-10-01T00:00:00" "temp" ["SEL"] ["WH"] 1 ">" (.num 20)).1
      (by simp)).1 20 rfl
  simpa [pyNumStr] using h

/-- C6 counterexample: the claim says a relative comparison with a
non-numeric literal fails before any query expression is produced, but a
Boolean literal — not a number in the data model — passes the compiler's
`isinstance(scalar, (int, float))` test (Python `bool` subclasses `int`):
`x < true` compiles successfully, comparing against the boolean itself
rather than a numeric magnitude. -/
theorem C6_counterexample_boolean_literal_relative_comparison :
    _conv_filter (.binary "<" (.path ["x"]) (.scalar (.bool true))) =
      .ok (.obj [("$lt", .arr [mongoToDouble "$x", .bool true])]) := by rfl

/-- C6 as amended: for every relative comparison (`<`, `<=`, `>`, `>=`) on a
path, the compiled expression pairs the `$let`/`$regexFind`/`$toDouble`
helper (`mongoToDouble`, which regex-captures the numeral embedded in the
tag-prefixed string value of the field reference and converts the captured
group to a double) with the literal's numeric magnitude — a Quantity
contributes its magnitude only, dropping the unit; a Boolean literal is
accepted by the numeric test and embedded as-is; and a literal that is
neither an `int`/`float` instance nor a Quantity makes compilation fail with
`ValueError` before any query expression is produced. -/
theorem C6_amended_mongo_relative_comparison
    (op mop : String) (p : String) (rest : List String) (lit : HScalar)
    (hop : _relative_ops.lookup op = some mop) :
    (∀ m : Rat, (lit = .num m ∨ ∃ u, lit = .quantity m u) →
      _conv_filter (.binary op (.path (p :: rest)) (.scalar lit)) =
        .ok (.obj [(mop, .arr [mongoToDouble ("$" ++ p), .num m])])) ∧
    (∀ b : Bool, lit = .bool b →
      _conv_filter (.binary op (.path (p :: rest)) (.scalar lit)) =
        .ok (.obj [(mop, .arr [mongoToDouble ("$" ++ p), .bool b])])) ∧
    (isinstanceIntFloat lit = false → (∀ m u, lit ≠ .quantity m u) →
      _conv_filter (.binary op (.path (p :: rest)) (.scalar lit)) =
        .error "ValueError: Impossible to compare with not a numnber") := by
  have hcases : op = "<" ∨ op = "<=" ∨ op = ">" ∨ op = ">=" := by
    rcases eq_or_ne op "<" with h | h
    · exact Or.inl h
    rcases eq_or_ne op "<=" with h2 | h2
    · exact Or.inr (Or.inl h2)
    rcases eq_or_ne op ">" with h3 | h3
    · exact Or.inr (Or.inr (Or.inl h3))
    rcases eq_or_ne op ">=" with h4 | h4
    · exact Or.inr (Or.inr (Or.inr h4))
    have e1 : (op == "<") = false := beq_eq_false_iff_ne.mpr h
    have e2 : (op == "<=") = false := beq_eq_false_iff_ne.mpr h2
    have e3 : (op == ">") = false := beq_eq_false_iff_ne.mpr h3
    have e4 : (op == ">=") = false := beq_eq_false_iff_ne.mpr h4
    simp [_relative_ops, List.lookup, e1, e2, e3, e4] at hop
  refine ⟨?_, ?_, ?_⟩
  · rintro m (rfl | ⟨u, rfl⟩) <;>
      rcases hcases with rfl | rfl | rfl | rfl <;>
        (simp [_relative_ops, List.lookup] at hop; subst hop;
         simp [_conv_filter, _simple_ops, _relative_ops, List.lookup, _to_float];
         rfl)
  · rintro b rfl
    rcases hcases with rfl | rfl | rfl | rfl <;>
      (simp [_relative_ops, List.lookup] at hop; subst hop;
       simp [_conv_filter, _simple_ops, _relative_ops, List.lookup, _to_float];
       rfl)
  · intro hnum hq
    rcases hcases with rfl | rfl | rfl | rfl <;>
      (simp [_relative_ops, List.lookup] at hop; subst hop) <;>
      (cases lit <;>
        simp_all [_conv_filter, _simple_ops, _relative_ops, List.lookup, _to_float,
          isinstanceIntFloat] <;>
        rfl)

/-- Witness for C6 as amended: `temp > 20kWh` (a Quantity literal) compiles
to `$gt` over the regex/`$toDouble` helper and the bare magnitude 20, by the
amended theorem at the concrete input. -/
theorem C6_amended_mongo_relative_comparison_witness :
    _conv_filter (.binary ">" (.path ["temp"]) (.scalar (.quantity 20 (some "kWh")))) =
      .ok (.obj [("$gt", .arr [mongoToDouble "$temp", .num 20])]) := by
  have h := (C6_amended_mongo_relative_comparison ">" "$gt" "temp" []
      (.quantity 20 (some "kWh")) (by rfl)).1 20 (Or.inr ⟨some "kWh", rfl⟩)
  simpa using h

/-- Element-wise success of `_dump_list_items`: a list whose every element
dumps successfully dumps successfully. -/
theorem dump_list_items_ok (v : Version) (l : List HScalar)
    (h : ∀ s ∈ l, ∃ j, _dump_scalar v s = .ok j) :
    ∃ js, _dump_list_items v l = .ok js := by
  induction l with
  | nil => exact ⟨[], by simp [_dump_list_items]⟩
  | cons s t ih =>
      obtain ⟨j, hj⟩ := h s (by simp)
      obtain ⟨js, hjs⟩ := ih (fun x hx => h x (by simp [hx]))
      refine ⟨j :: js, ?_⟩
      simp [_dump_list_items, hj, hjs]
      rfl

/-- Entry-wise success of `_dump_fields`. -/
theorem dump_fields_ok (v : Version) (d : List (String × HScalar))
    (h : ∀ kv ∈ d, ∃ j, _dump_scalar v kv.2 = .ok j) :
    ∃ js, _dump_fields v d = .ok js := by
  induction d with
  | nil => exact ⟨[], by simp [_dump_fields]⟩
  | cons kv t ih =>
      obtain ⟨j, hj⟩ := h kv (by simp)
      obtain ⟨js, hjs⟩ := ih (fun x hx => h x (by simp [hx]))
      rcases kv with ⟨k, s⟩
      refine ⟨(k, j) :: js, ?_⟩
      simp [_dump_fields, hj, hjs]
      rfl

/-- C5 counterexample: the claim says encoding a List at a version ≥ 3.0
always succeeds, but a nested grid is encoded under its own version, not the
ambient one: a list encoded at 3.0 holding a grid whose own version is 2.0
and whose row holds an NA fails with the version error. -/
theorem C5_counterexample_nested_grid_fails_at_3_0 :
    _dump_scalar ⟨3, 0⟩ (.list [.grid ⟨2, 0⟩ [] [("x", [])] [[("x", .na)]]]) =
      .error "Project Haystack 2.0 does not support NA" := by
  simp [_dump_scalar, _dump_list, _dump_list_items, _dump_grid_to_json,
    _dump_meta, _dump_fields, _dump_columns, _dump_columns_items, _dump_column,
    _dump_rows, _dump_row, Version.lt, VER_3_0, Version.str, List.lookup]
  rfl

/-- C5 as amended: below 3.0, encoding NA, any List or any Dict always fails
with the version error; at or above 3.0, NA always succeeds, and a List or
Dict encodes successfully whenever each of its member values does — a member
can itself fail (e.g. a nested Grid carrying its own pre-3.0 version with
version-gated contents, which is encoded under the grid's own version), and
then the whole encoding fails. -/
theorem C5_amended_version_gating (v : Version) (l : List HScalar)
    (d : List (String × HScalar)) :
    (Version.lt v VER_3_0 = true →
      _dump_scalar v .na =
        .error ("Project Haystack " ++ v.str ++ " does not support NA") ∧
      _dump_scalar v (.list l) =
        .error ("Project Haystack " ++ v.str ++ " does not support lists") ∧
      _dump_scalar v (.dict d) =
        .error ("Project Haystack " ++ v.str ++ " does not support dict"))
    ∧ (Version.lt v VER_3_0 = false →
      _dump_scalar v .na = .ok (.str NA_STR) ∧
      ((∀ s ∈ l, ∃ j, _dump_scalar v s = .ok j) →
        ∃ js, _dump_scalar v (.list l) = .ok (.arr js)) ∧
      ((∀ kv ∈ d, ∃ j, _dump_scalar v kv.2 = .ok j) →
        ∃ js, _dump_scalar v (.dict d) = .ok (.obj js))) := by
  constructor
  · intro hlt
    refine ⟨?_, ?_, ?_⟩ <;> simp [_dump_scalar, _dump_list, _dump_dict, hlt, Except.map]
  · intro hge
    refine ⟨by simp [_dump_scalar, hge], ?_, ?_⟩
    · intro h
      obtain ⟨js, hjs⟩ := dump_list_items_ok v l h
      exact ⟨js, by simp [_dump_scalar, _dump_list, hge, hjs, Except.map]⟩
    · intro h
      obtain ⟨js, hjs⟩ := dump_fields_ok v d h
      exact ⟨js, by simp [_dump_scalar, _dump_dict, hge, hjs, Except.map]⟩

/-- Witness for C5 as amended: at 2.0 the list `[marker]` fails with the
version error; at 3.0 it succeeds. -/
theorem C5_amended_version_gating_witness :
    _dump_scalar ⟨2, 0⟩ (.list [.marker]) =
      .error "Project Haystack 2.0 does not support lists" ∧
    ∃ js, _dump_scalar ⟨3, 0⟩ (.list [.marker]) = .ok (.arr js) := by
  constructor
  · have h := ((C5_amended_version_gating ⟨2, 0⟩ [.marker] []).1 (by decide)).2.1
    simpa [Version.str] using h
  · exact ((C5_amended_version_gating ⟨3, 0⟩ [.marker] []).2 (by decide)).2.1
      (by
        intro s hs
        simp at hs
        subst hs
        exact ⟨.str MARKER_STR, by simp [_dump_scalar]⟩)

/-- Decimal digit characters are not the space character. -/
theorem digitChar_lt_ten_ne_space : ∀ d : Nat, d < 10 → Nat.digitChar d ≠ ' ' := by decide

/-- Every character `Nat.toDigitsCore` emits is either from the accumulator
or a digit character below the base. -/
theorem toDigitsCore_chars (b : Nat) (hb : 0 < b) :
    ∀ (f n : Nat) (acc : List Char), ∀ c ∈ Nat.toDigitsCore b f n acc,
      c ∈ acc ∨ ∃ k, k < b ∧ c = Nat.digitChar k := by
  intro f
  induction f with
  | zero =>
      intro n acc c hc
      simp only [Nat.toDigitsCore] at hc
      exact Or.inl hc
  | succ f ih =>
      intro n acc c hc
      simp only [Nat.toDigitsCore] at hc
      split at hc
      · rcases List.mem_cons.mp hc with h | h
        · exact Or.inr ⟨n % b, Nat.mod_lt _ hb, h⟩
        · exact Or.inl h
      · rcases ih (n / b) (Nat.digitChar (n % b) :: acc) c hc with h | h
        · rcases List.mem_cons.mp h with h2 | h2
          · exact Or.inr ⟨n % b, Nat.mod_lt _ hb, h2⟩
          · exact Or.inl h2
        · exact Or.inr h

/-- The decimal text of a natural number holds no space character. -/
theorem natRepr_no_space (n : Nat) : ∀ c ∈ (Nat.repr n).data, c ≠ ' ' := by
  intro c hc
  have hc2 : c ∈ Nat.toDigitsCore 10 (n + 1) n [] := by
    simpa [Nat.repr, Nat.toDigits, List.asString] using hc
  rcases toDigitsCore_chars 10 (by decide) (n + 1) n [] c hc2 with h | ⟨k, hk, rfl⟩
  · simp at h
  · exact digitChar_lt_ten_ne_space k hk

/-- The `%f` model emits no space character: a dumped plain number carries no
trailing space or unit symbol. -/
theorem fmt6_no_space (q : Rat) : ∀ c ∈ (fmt6 q).data, c ≠ ' ' := by
  intro c hc
  unfold fmt6 at hc
  simp only [String.data_append, List.mem_append] at hc
  rcases hc with ((((h | h) | h) | h) | h)
  · split at h <;> simp at h <;> subst h <;> decide
  · exact natRepr_no_space _ c h
  · simp at h; subst h; decide
  · have := List.eq_of_mem_replicate h
    subst this
    decide
  · exact natRepr_no_space _ c h

/-- C7: encoding `Number(20.0, unit="kWh")` yields exactly
`"n:20.000000 kWh"` — fixed-point decimal, six decimal places — and a Number
(Quantity) whose unit is absent or the empty string encodes as the plain
prefixed number `"n:" ++ fmt6 m` (the `'n:%f'` form, identical to the bare
float encoding), whose text contains no space and hence no trailing space or
unit. -/
theorem C7_number_encoding_fixed_point :
    _dump_scalar LATEST_VER (.quantity 20 (some "kWh")) = .ok (.str "n:20.000000 kWh") ∧
    (∀ m : Rat, _dump_scalar LATEST_VER (.quantity m none) = .ok (.str ("n:" ++ fmt6 m))) ∧
    (∀ m : Rat, _dump_scalar LATEST_VER (.quantity m (some "")) = .ok (.str ("n:" ++ fmt6 m))) ∧
    (∀ m : Rat, _dump_scalar LATEST_VER (.num m) = .ok (.str ("n:" ++ fmt6 m))) ∧
    (∀ m : Rat, (("n:" ++ fmt6 m).data.all fun c => !(c == ' ')) = true) := by
  refine ⟨?_, ?_, ?_, ?_, ?_⟩
  · simp [_dump_scalar, _dump_quantity]
    decide
  · intro m
    simp [_dump_scalar, _dump_quantity, _dump_decimal]
  · intro m
    simp [_dump_scalar, _dump_quantity, _dump_decimal]
  · intro m
    simp [_dump_scalar, _dump_decimal]
  · intro m
    rw [List.all_eq_true]
    intro c hc
    have hc2 : c ∈ ("n:" ++ fmt6 m).data := hc
    rw [String.data_append] at hc2
    rcases List.mem_append.mp hc2 with h | h
    · simp at h
      rcases h with rfl | rfl <;> decide
    · simpa using fmt6_no_space m c h

/-- In-place replacement keeps the key findable with the new value. -/
theorem lookup_map_replace (l : List (String × JsonVal)) (k : String) (v : JsonVal)
    (hsome : (l.lookup k).isSome = true) :
    (l.map (fun p => if p.1 == k then (p.1, v) else p)).lookup k = some v := by
  induction l with
  | nil => simp [List.lookup] at hsome
  | cons p t ih =>
      rcases p with ⟨k2, v2⟩
      by_cases hk : (k == k2) = true
      · have hk2 : (k2 == k) = true := by
          rw [beq_iff_eq] at hk ⊢
          exact hk.symm
        simp only [List.map_cons]
        rw [if_pos (show ((k2, v2).1 == k) = true from hk2)]
        simp [List.lookup, hk]
      · have hk' : (k == k2) = false := by simpa using hk
        have hk2 : (k2 == k) = false := by
          rw [beq_eq_false_iff_ne] at hk' ⊢
          exact fun e => hk' e.symm
        simp only [List.lookup, hk'] at hsome
        simp only [List.map_cons]
        rw [if_neg (show ¬ ((k2, v2).1 == k) = true by simp [hk2])]
        simp only [List.lookup, hk']
        exact ih hsome

/-- Appending a fresh entry makes the key findable with its value. -/
theorem lookup_append_single (l : List (String × JsonVal)) (k : String) (v : JsonVal)
    (hnone : ¬ (l.lookup k).isSome = true) :
    ((l ++ [(k, v)]).lookup k) = some v := by
  induction l with
  | nil => simp [List.lookup]
  | cons p t ih =>
      rcases p with ⟨k2, v2⟩
      by_cases hk : (k == k2) = true
      · exact absurd (by simp [List.lookup, hk]) hnone
      · have hk' : (k == k2) = false := by simpa using hk
        simp only [List.lookup, hk'] at hnone
        simp only [List.cons_append, List.lookup, hk']
        exact ih hnone

/-- Python `d['k'] = v`: afterwards `d.lookup 'k'` yields `v`, whether the
key was replaced in place or appended. -/
theorem dictAssign_lookup_self (l : List (String × JsonVal)) (k : String) (v : JsonVal) :
    (dictAssign l k v).lookup k = some v := by
  unfold dictAssign
  split
  · exact lookup_map_replace l k v (by assumption)
  · exact lookup_append_single l k v (by assumption)

/-- Reduction of an `Except` bind on a success value. -/
@[simp] theorem bindOk {α β : Type} (a : α) (f : α → Except String β) :
    (Except.ok a >>= f) = f a := rfl

/-- Reduction of an `Except` bind on an error. -/
@[simp] theorem bindError {α β : Type} (e : String) (f : α → Except String β) :
    ((Except.error e : Except String α) >>= f) = Except.error e := rfl

/-- The keys of a dumped row are exactly the column names present in the row,
in column order. -/
theorem dump_row_keys (ver : Version) (row : List (String × HScalar)) :
    ∀ (cols : List (String × List (String × HScalar))) (rowObj : List (String × JsonVal)),
      _dump_row ver row cols = .ok rowObj →
      rowObj.map Prod.fst = (cols.map Prod.fst).filter (fun c => (row.lookup c).isSome) := by
  intro cols
  induction cols with
  | nil =>
      intro rowObj h
      simp only [_dump_row, Except.ok.injEq] at h
      subst h
      simp
  | cons p t ih =>
      rcases p with ⟨c, m⟩
      intro rowObj h
      simp only [_dump_row] at h
      by_cases hc : (row.lookup c).isSome = true
      · rw [if_pos hc] at h
        cases hd : _dump_scalar ver ((row.lookup c).getD .null) with
        | error e => rw [hd] at h; simp at h
        | ok j =>
            rw [hd] at h
            cases hr : _dump_row ver row t with
            | error e => rw [hr] at h; simp at h
            | ok r =>
                rw [hr] at h
                simp only [bindOk, Except.ok.injEq] at h
                subst h
                simp only [List.map_cons, List.filter_cons, hc, if_pos]
                exact congrArg (c :: ·) (ih r hr)
      · rw [if_neg hc] at h
        have hc2 : (row.lookup c).isSome = false := by
          cases hval : (row.lookup c).isSome with
          | false => rfl
          | true => exact absurd hval hc
        simp only [List.map_cons, List.filter_cons, hc2]
        simpa using ih rowObj h

/-- Each dumped column object carries its column's name, and the dumped
column list follows the column order. -/
theorem dump_columns_items_names (ver : Version) :
    ∀ (cols : List (String × List (String × HScalar)))
      (colObjs : List (List (String × JsonVal))),
      _dump_columns_items ver cols = .ok colObjs →
      colObjs.map (fun o => o.lookup "name") = cols.map (fun p => some (JsonVal.str p.1)) := by
  intro cols
  induction cols with
  | nil =>
      intro colObjs h
      simp only [_dump_columns_items, Except.ok.injEq] at h
      subst h
      simp
  | cons p t ih =>
      rcases p with ⟨c, m⟩
      intro colObjs h
      simp only [_dump_columns_items] at h
      cases ho : _dump_column ver c m with
      | error e => rw [ho] at h; simp at h
      | ok o =>
          rw [ho] at h
          cases hr : _dump_columns_items ver t with
          | error e => rw [hr] at h; simp at h
          | ok r =>
              rw [hr] at h
              simp only [bindOk, Except.ok.injEq] at h
              subst h
              have hname : o.lookup "name" = some (.str c) := by
                simp only [_dump_column] at ho
                split at ho
                · simp only [bindOk, Except.ok.injEq] at ho
                  subst ho
                  exact dictAssign_lookup_self [] "name" (.str c)
                · cases hm : _dump_meta ver false m with
                  | error e => rw [hm] at ho; simp at ho
                  | ok mm =>
                      rw [hm] at ho
                      simp only [bindOk, Except.ok.injEq] at ho
                      subst ho
                      exact dictAssign_lookup_self mm "name" (.str c)
              simp only [List.map_cons, hname]
              exact congrArg (some (JsonVal.str c) :: ·) (ih r hr)

/-- C8: in the assembled grid document, a dumped row object holds exactly the
keys present both in the row and in the grid's column set (an absent column
yields no key — distinct from an explicit null value, which yields the key
with a null value), in column order; and the dumped `cols` list follows the
grid's column insertion order verbatim (each column object carrying its
column's `name`), regardless of row content. -/
theorem C8_grid_row_keys_and_column_order
    (ver : Version) (row : List (String × HScalar))
    (cols : List (String × List (String × HScalar)))
    (rowObj : List (String × JsonVal)) (colObjs : List (List (String × JsonVal)))
    (h1 : _dump_row ver row cols = .ok rowObj)
    (h2 : _dump_columns ver cols = .ok colObjs) :
    rowObj.map Prod.fst = (cols.map Prod.fst).filter (fun c => (row.lookup c).isSome) ∧
    colObjs.map (fun o => o.lookup "name") = cols.map (fun p => some (JsonVal.str p.1)) := by
  constructor
  · exact dump_row_keys ver row cols rowObj h1
  · have hitems : _dump_columns_items ver cols = .ok colObjs := by
      simp only [_dump_columns] at h2
      split at h2
      · simp at h2
      · exact h2
    exact dump_columns_items_names ver cols colObjs hitems

/-- Witness for C8: a grid with columns `a`, `b` and a row holding `b` (a
marker) and a stray `c`: the dumped row holds exactly the key `b`, and the
dumped column objects carry the names `a`, `b` in order. -/
theorem C8_grid_row_keys_and_column_order_witness :
    [("b", JsonVal.str MARKER_STR)].map Prod.fst =
      (([("a", []), ("b", [])] : List (String × List (String × HScalar))).map Prod.fst).filter
        (fun c => (([("b", HScalar.marker), ("c", HScalar.bool true)]).lookup c).isSome) ∧
    [[("name", JsonVal.str "a")], [("name", JsonVal.str "b")]].map
        (fun o => o.lookup "name") =
      ([("a", []), ("b", [])] : List (String × List (String × HScalar))).map
        (fun p => some (JsonVal.str p.1)) := by
  have h1 : _dump_row ⟨3, 0⟩ [("b", HScalar.marker), ("c", HScalar.bool true)]
      [("a", []), ("b", [])] = .ok [("b", JsonVal.str MARKER_STR)] := by
    simp [_dump_row, _dump_scalar, List.lookup]
  have h2 : _dump_columns ⟨3, 0⟩ [("a", []), ("b", [])] =
      .ok [[("name", JsonVal.str "a")], [("name", JsonVal.str "b")]] := by
    simp [_dump_columns, _dump_columns_items, _dump_column, dictAssign, List.lookup]
  exact C8_grid_row_keys_and_column_order ⟨3, 0⟩ _ _ _ _ h1 h2
